import Mathlib

/-!
Verification of the dataset view layer (dataset/views.py).

The database tables are modelled as Lean lists of rows, kept in primary-key
order (the order a relational table yields rows to an unordered queryset
whose `first()` call the framework resolves by ascending primary key).
Each view handler becomes a pure function from the relevant table(s) and
request data to an `Except` value: a `.error` models an uncaught Python
exception leaving the handler, and an `.ok` carries the new table state
together with the rendered outcome or response body.
-/

/-- A row of the Dataset table: primary key, owner account name, dataset
name (used as the URL slug), and creation timestamp. -/
structure Dataset where
  id : Nat
  ownerName : String
  name : String
  created : Nat
  deriving Repr, DecidableEq

/-- A row of the data-file table: primary key, owning dataset, and the
uploaded byte content. -/
structure DataFile where
  id : Nat
  dataset_id : Nat
  content : List Nat
  deriving Repr, DecidableEq

/-- A row of the StarredDataset join table: primary key, user, dataset. -/
structure StarredDataset where
  id : Nat
  user_id : Nat
  dataset_id : Nat
  deriving Repr, DecidableEq

/-- The exception classes the handlers in views.py can let escape.
`doesNotExist` is the model manager exception raised by a bare
`objects.get` with no match; `http404` is the distinguished class the
framework converts to an HTTP 404 response; `keyError` is the Python
key-lookup failure on `request.data`; `attributeErrorNone` is the
attribute access on `None` performed by star destroy when no row
matches. -/
inductive ViewError where
  | doesNotExist
  | multipleObjectsReturned
  | http404
  | integrityError
  | keyError (key : String)
  | attributeErrorNone
  deriving Repr, DecidableEq

/-- The HTTP status the framework request handler produces for an
exception that escapes a view: `Http404` is converted to a 404 response
and every other uncaught exception surfaces as a 500 server error. -/
def statusOf : ViewError → Nat
  | .http404 => 404
  | _ => 500

/-- `request.data[k]` on a JSON body of integer values: `none` models the
KeyError raised when the key is absent. -/
def requestData (body : List (String × Nat)) (k : String) : Option Nat :=
  (body.find? (fun p => p.1 == k)).map (·.2)

/-- A response body of string pairs, standing for the JSON object the
REST `Response(...)` serialises. -/
def RespBody := List (String × String)
  deriving Repr, DecidableEq

namespace StarredDatasetsViewSet

/-- `StarredDatasetsViewSet.list`: filter the star table to the rows of
the requesting user (`self.queryset.filter(user_id=user_id)`). -/
def list (stars : List StarredDataset) (userId : Nat) : List StarredDataset :=
  stars.filter (fun s => s.user_id == userId)

/-- The serialised list response: one serialised object per row of the
filtered queryset, in order. The row serialiser is a parameter (it lives
in dataset/serializers.py, an external collaborator of this view). -/
def listResponse {α : Type} (serialize : StarredDataset → α)
    (stars : List StarredDataset) (userId : Nat) : List α :=
  (list stars userId).map serialize

/-- Fresh primary key for an inserted star row: one past the largest key
in the table. -/
def freshStarId (stars : List StarredDataset) : Nat :=
  (stars.map (·.id)).foldr max 0 + 1

/-- `StarredDatasetsViewSet.create`: read `request.data["dataset_id"]`
(KeyError when absent), build the serializer on
`{dataset: dataset_id, user_id: user_id}`, and if `is_valid()` holds save
the row and answer `{"status": "starred status created"}`, otherwise
`raise Http404()`. The serializer validity predicate is a parameter
(dataset/serializers.py is an external collaborator); its save inserts
the (user, dataset) row with a fresh primary key. -/
def create (isValid : Nat → Nat → Bool) (stars : List StarredDataset)
    (userId : Nat) (body : List (String × Nat)) :
    Except ViewError (List StarredDataset × RespBody) :=
  match requestData body "dataset_id" with
  | none => .error (.keyError "dataset_id")
  | some datasetId =>
      if isValid datasetId userId then
        .ok (stars ++ [⟨freshStarId stars, userId, datasetId⟩],
             [("status", "starred status created")])
      else
        .error .http404

/-- `StarredDatasetsViewSet.destroy`: read the requesting user and
`request.data["dataset_id"]` (KeyError when absent), take
`queryset.filter(user_id, dataset_id).first()` — the lowest-primary-key
match, hence `head?` of the filtered pk-ordered table — and call
`.delete()` on it. When `first()` returned `None` the `.delete()`
attribute access raises (`attributeErrorNone`); otherwise the row with
that primary key is deleted and the body is
`{"status": "starred status deleted"}`. -/
def destroy (stars : List StarredDataset) (userId : Nat)
    (body : List (String × Nat)) :
    Except ViewError (List StarredDataset × RespBody) :=
  match requestData body "dataset_id" with
  | none => .error (.keyError "dataset_id")
  | some datasetId =>
      match (stars.filter
          (fun s => s.user_id == userId && s.dataset_id == datasetId)).head? with
      | none => .error .attributeErrorNone
      | some s =>
          .ok (stars.filter (fun t => t.id != s.id),
               [("status", "starred status deleted")])

end StarredDatasetsViewSet

/-- `Dataset.objects.get(owner__name=account, name=slug)`: exactly one
matching row is returned; zero matches raise the DoesNotExist manager
exception and several matches raise MultipleObjectsReturned. -/
def objectsGet (datasets : List Dataset) (account slug : String) :
    Except ViewError Dataset :=
  match datasets.filter (fun d => d.ownerName == account && d.name == slug) with
  | [] => .error .doesNotExist
  | [d] => .ok d
  | _ :: _ :: _ => .error .multipleObjectsReturned

/-- Modelled from the spec: `Dataset.get_absolute_url` (the model module
is not under src/) — the URL of the dataset detail page, determined by
owner account name and dataset name. -/
def getAbsoluteUrl (d : Dataset) : String :=
  "/datasets/" ++ d.ownerName ++ "/" ++ d.name ++ "/"

/-- The observable outcome of a form-handling view: a redirect to a URL
on success, or the form re-rendered carrying a non-field error. -/
inductive FormOutcome where
  | redirect (url : String)
  | formError (message : String)
  deriving Repr, DecidableEq

/-- Modelled from the spec: the unique (owner, name) constraint on the
Dataset model (the model module is not under src/). `form.save()` of the
create form inserts a row owned by the current user, and the storage
layer raises IntegrityError when a row with the same (owner, name)
already exists. `rowId` and `created` stand for the storage-assigned
primary key and timestamp. -/
def createDatasetFormSave (datasets : List Dataset) (owner nm : String)
    (rowId created : Nat) : Except ViewError (List Dataset × Dataset) :=
  if datasets.any (fun d => d.ownerName == owner && d.name == nm) then
    .error .integrityError
  else
    .ok (datasets ++ [⟨rowId, owner, nm, created⟩], ⟨rowId, owner, nm, created⟩)

namespace DatasetCreateView

/-- `DatasetCreateView.form_valid`: attempt the save; on success redirect
to `self.object.get_absolute_url()`, and on IntegrityError (the only
exception the save raises) re-render the form with the duplicate-name
non-field error, leaving the table as it was. -/
def form_valid (datasets : List Dataset) (owner nm : String)
    (rowId created : Nat) : List Dataset × FormOutcome :=
  match createDatasetFormSave datasets owner nm rowId created with
  | .ok (datasets2, d) => (datasets2, .redirect (getAbsoluteUrl d))
  | .error _ =>
      (datasets,
       .formError "A dataset with this name already exists, please choose another.")

end DatasetCreateView

/-- Modelled from the spec: the duplicate-content constraint on uploaded
files (the model module is not under src/). `form.save()` of the upload
form inserts a file row linked to the resolved dataset, and the storage
layer raises IntegrityError when byte-identical content already exists in
that dataset. -/
def dataFileFormSave (files : List DataFile) (ds : Dataset)
    (content : List Nat) (rowId : Nat) : Except ViewError (List DataFile × DataFile) :=
  if files.any (fun f => f.dataset_id == ds.id && f.content == content) then
    .error .integrityError
  else
    .ok (files ++ [⟨rowId, ds.id, content⟩], ⟨rowId, ds.id, content⟩)

namespace DataFileUploadView

/-- `DataFileUploadView.form_valid`: `self.object = form.save()` inside a
try block; on success redirect to `self.object.dataset.get_absolute_url()`
(the detail page of the dataset the new file is linked to), and on
IntegrityError re-render the form with the duplicate-file non-field
error, leaving the file table as it was. -/
def form_valid (files : List DataFile) (ds : Dataset) (content : List Nat)
    (rowId : Nat) : List DataFile × FormOutcome :=
  match dataFileFormSave files ds content rowId with
  | .ok (files2, _) => (files2, .redirect (getAbsoluteUrl ds))
  | .error _ =>
      (files, .formError "Duplicate file detected! Cannot upload the same file twice.")

/-- The value stored under the `dataset` context key: either the freshly
saved file object (`self.object`, set by `form_valid` in this request) or
a Dataset row looked up by (account, slug). -/
inductive ContextObject where
  | savedFile (f : DataFile)
  | lookedUp (d : Dataset)
  deriving Repr, DecidableEq

/-- `DataFileUploadView.get_context_data`: when `self.object` exists the
context `dataset` key holds it; otherwise the key holds
`Dataset.objects.get(owner__name=account, name=slug)` on the URL path
parameters, whose DoesNotExist exception propagates out of the view. -/
def get_context_data (datasets : List Dataset) (account slug : String)
    (obj : Option DataFile) : Except ViewError ContextObject :=
  match obj with
  | some f => .ok (.savedFile f)
  | none => (objectsGet datasets account slug).map ContextObject.lookedUp

end DataFileUploadView

/-- Modelled from the spec: the latest ordering of the Dataset model (the
model module defining `get_latest_by` is not under src/) — the
most-recently-created row, `none` on an empty table (where the manager
call would raise). -/
def objectsLatest : List Dataset → Option Dataset
  | [] => none
  | d :: ds =>
      match objectsLatest ds with
      | none => some d
      | some e => some (if e.created ≥ d.created then e else d)

/-- The extra context of the dataset list page: the total row count, and
(only when that count is positive) the creation timestamp of the latest
dataset. An `Option` field set to `none` models the absent context key. -/
structure ListContext where
  num_datasets : Nat
  latest_dataset : Option Nat
  deriving Repr, DecidableEq

namespace DatasetListView

/-- `DatasetListView.get_context_data`: `num_datasets` is
`Dataset.objects.count()`; only when it is positive is `latest_dataset`
set to `Dataset.objects.latest().created`. -/
def get_context_data (datasets : List Dataset) : ListContext :=
  { num_datasets := datasets.length
  , latest_dataset :=
      if datasets.length > 0 then (objectsLatest datasets).map (·.created)
      else none }

end DatasetListView

/-- `DatasetDetailView.get_queryset`: the Dataset rows whose owner name
matches the `account` URL argument. -/
def detailGetQueryset (datasets : List Dataset) (account : String) : List Dataset :=
  datasets.filter (fun d => d.ownerName == account)

/-- The framework DetailView object lookup with `slug_field = "name"`:
`get_queryset().get(name=slug)`, with the DoesNotExist exception caught
by the framework and re-raised as Http404. MultipleObjectsReturned is not
caught and propagates. -/
def detailGetObject (datasets : List Dataset) (account slug : String) :
    Except ViewError Dataset :=
  match (detailGetQueryset datasets account).filter (fun d => d.name == slug) with
  | [] => .error .http404
  | [d] => .ok d
  | _ :: _ :: _ => .error .multipleObjectsReturned

/-- A dataset detail panel view: the class-level attributes the four
variants declare, plus the object lookup they inherit. -/
structure DetailVariant where
  template_name : String
  panel_name : String
  get_object : List Dataset → String → String → Except ViewError Dataset

/-- `DatasetDetailView`: the files panel. -/
def DatasetDetailView : DetailVariant :=
  { template_name := "dataset/detail/files.html"
  , panel_name := "files"
  , get_object := detailGetObject }

/-- `DatasetSchemaView`, overriding only the template and panel name. -/
def DatasetSchemaView : DetailVariant :=
  { DatasetDetailView with
      template_name := "dataset/detail/schema.html", panel_name := "schema" }

/-- `DatasetExploreView`, overriding only the template and panel name. -/
def DatasetExploreView : DetailVariant :=
  { DatasetDetailView with
      template_name := "dataset/detail/explore.html", panel_name := "explore" }

/-- `DatasetSettingsView`, overriding only the template and panel name. -/
def DatasetSettingsView : DetailVariant :=
  { DatasetDetailView with
      template_name := "dataset/detail/settings.html", panel_name := "settings" }

/-! ## Helper lemmas -/

/-- In a star table with distinct primary keys, deleting by the primary
key of a designated row removes exactly that row. -/
theorem filter_ne_id_eq_append (pre post : List StarredDataset) (s : StarredDataset)
    (h : ((pre ++ s :: post).map (·.id)).Nodup) :
    (pre ++ s :: post).filter (fun t => t.id != s.id) = pre ++ post := by
  rw [List.map_append, List.map_cons, List.nodup_append] at h
  obtain ⟨-, hcons, hdisj⟩ := h
  have hpost : ∀ x ∈ post, x.id ≠ s.id := by
    intro x hx heq
    exact (List.nodup_cons.mp hcons).1 (heq ▸ List.mem_map_of_mem (·.id) hx)
  have hpre : ∀ x ∈ pre, x.id ≠ s.id := by
    intro x hx hexq
    exact hdisj (List.mem_map_of_mem (·.id) hx) (by simp [hexq])
  rw [List.filter_append]
  have h1 : pre.filter (fun t => t.id != s.id) = pre :=
    List.filter_eq_self.mpr (fun x hx => by simp [hpre x hx])
  have h2 : (s :: post).filter (fun t => t.id != s.id) = post := by
    rw [List.filter_cons_of_neg (by simp), List.filter_eq_self.mpr]
    intro x hx
    simp [hpost x hx]
  rw [h1, h2]

/-- `head?` of a filtered list, when the list splits as a prefix with no
match followed by a matching element: the matching element is first. -/
theorem filter_head_of_split {α : Type} (p : α → Bool) (pre post : List α) (s : α)
    (hs : p s = true) (hpre : ∀ x ∈ pre, p x = false) :
    ((pre ++ s :: post).filter p).head? = some s := by
  rw [List.filter_append, List.filter_eq_nil_iff.mpr (by simpa using hpre),
    List.nil_append, List.filter_cons_of_pos hs]
  rfl

/-! ## C1: star destroy -/

/-- C1. A star-destroy request whose body carries `dataset_id = d` for
user `u`: when no (u, d) star row exists the handler raises the
attribute-access-on-None error; when a matching row exists the result is
a success response `{"status": "starred status deleted"}`, and the row
deleted is exactly the first matching one (the rest of the table is
kept). -/
theorem star_destroy_deletes_first_match_or_raises
    (stars : List StarredDataset) (u d : Nat) (body : List (String × Nat))
    (hbody : requestData body "dataset_id" = some d) :
    ((∀ s ∈ stars, ¬(s.user_id = u ∧ s.dataset_id = d)) →
        StarredDatasetsViewSet.destroy stars u body = .error .attributeErrorNone)
    ∧ ((∃ s ∈ stars, s.user_id = u ∧ s.dataset_id = d) →
        ∃ stars2, StarredDatasetsViewSet.destroy stars u body
          = .ok (stars2, [("status", "starred status deleted")]))
    ∧ (∀ pre s post, stars = pre ++ s :: post →
        s.user_id = u → s.dataset_id = d →
        (∀ x ∈ pre, ¬(x.user_id = u ∧ x.dataset_id = d)) →
        (stars.map (·.id)).Nodup →
        StarredDatasetsViewSet.destroy stars u body
          = .ok (pre ++ post, [("status", "starred status deleted")])) := by
  refine ⟨?_, ?_, ?_⟩
  · intro hnone
    have hfil : stars.filter (fun s => s.user_id == u && s.dataset_id == d) = [] := by
      apply List.filter_eq_nil_iff.mpr
      intro s hs
      have := hnone s hs
      simp only [Bool.and_eq_true, beq_iff_eq]
      tauto
    simp only [StarredDatasetsViewSet.destroy, hbody, hfil]
    rfl
  · rintro ⟨s, hs, h1, h2⟩
    have hmem : s ∈ stars.filter (fun s => s.user_id == u && s.dataset_id == d) :=
      List.mem_filter.mpr ⟨hs, by simp [h1, h2]⟩
    rcases hfe : stars.filter (fun s => s.user_id == u && s.dataset_id == d) with
      - | ⟨a, rest⟩
    · rw [hfe] at hmem
      cases hmem
    · exact ⟨_, by simp only [StarredDatasetsViewSet.destroy, hbody, hfe]; rfl⟩
  · intro pre s post hsplit h1 h2 hpre hnodup
    subst hsplit
    have hhead : ((pre ++ s :: post).filter
        (fun s => s.user_id == u && s.dataset_id == d)).head? = some s := by
      apply filter_head_of_split _ pre post s (by simp [h1, h2])
      intro x hx
      have := hpre x hx
      simp only [Bool.and_eq_false_iff]
      by_cases hxu : x.user_id = u
      · right
        simp only [beq_eq_false_iff_ne, ne_eq]
        intro hxd
        exact this ⟨hxu, hxd⟩
      · left
        simpa using hxu
    simp only [StarredDatasetsViewSet.destroy, hbody, hhead]
    rw [filter_ne_id_eq_append pre post s hnodup]

/-- Witness for C1: with table `[⟨1, 7, 5⟩]`, user 7 and body
`dataset_id = 5` the star is deleted (first-match clause, with the empty
decomposition), and with the empty table the handler raises. -/
theorem star_destroy_witness :
    StarredDatasetsViewSet.destroy [⟨1, 7, 5⟩] 7 [("dataset_id", 5)]
      = .ok ([], [("status", "starred status deleted")])
    ∧ StarredDatasetsViewSet.destroy [] 7 [("dataset_id", 5)]
      = .error .attributeErrorNone := by
  constructor
  · have h := (star_destroy_deletes_first_match_or_raises
      [⟨1, 7, 5⟩] 7 5 [("dataset_id", 5)] rfl).2.2 [] ⟨1, 7, 5⟩ [] rfl rfl rfl
      (by intro x hx; cases hx) (by decide)
    simpa using h
  · exact (star_destroy_deletes_first_match_or_raises
      [] 7 5 [("dataset_id", 5)] rfl).1 (by intro s hs; cases hs)

/-! ## C3: star create -/

/-- C3. A star-create request whose body carries `dataset_id = d` for
user `u`: when the serializer on `{dataset: d, user_id: u}` is not valid
the handler raises Http404 — the class the framework maps to HTTP 404,
not 400 — and the table is untouched; when it is valid the (u, d) star
row is saved and the body is `{"status": "starred status created"}`. -/
theorem star_create_maps_invalid_to_404
    (isValid : Nat → Nat → Bool) (stars : List StarredDataset)
    (u d : Nat) (body : List (String × Nat))
    (hbody : requestData body "dataset_id" = some d) :
    (isValid d u = false →
        StarredDatasetsViewSet.create isValid stars u body = .error .http404
        ∧ statusOf .http404 = 404 ∧ statusOf .http404 ≠ 400)
    ∧ (isValid d u = true →
        StarredDatasetsViewSet.create isValid stars u body
          = .ok (stars ++ [⟨StarredDatasetsViewSet.freshStarId stars, u, d⟩],
                 [("status", "starred status created")])) := by
  constructor
  · intro hv
    simp only [StarredDatasetsViewSet.create, hbody, hv]
    exact ⟨rfl, rfl, by decide⟩
  · intro hv
    simp only [StarredDatasetsViewSet.create, hbody, hv]
    rfl

/-- Witness for C3: body `dataset_id = 5`, user 7; an always-false
serializer yields Http404, and an always-true serializer inserts the
star row and acknowledges. -/
theorem star_create_witness :
    (StarredDatasetsViewSet.create (fun _ _ => false) [] 7 [("dataset_id", 5)]
        = .error .http404
      ∧ statusOf .http404 = 404 ∧ statusOf .http404 ≠ 400)
    ∧ StarredDatasetsViewSet.create (fun _ _ => true) [] 7 [("dataset_id", 5)]
        = .ok ([⟨1, 7, 5⟩], [("status", "starred status created")]) :=
  ⟨(star_create_maps_invalid_to_404 (fun _ _ => false) [] 7 5
      [("dataset_id", 5)] rfl).1 rfl,
   (star_create_maps_invalid_to_404 (fun _ _ => true) [] 7 5
      [("dataset_id", 5)] rfl).2 rfl⟩

/-! ## C10: missing dataset_id key -/

/-- C10. A star-create or star-destroy request whose body has no
`dataset_id` key raises KeyError, whatever the serializer validity
predicate and whatever the state of the star table — so before any
validation, any Http404 mapping and any table access — and the error
result carries no new table state, so nothing is created or deleted. -/
theorem star_missing_dataset_id_keyerror
    (isValid : Nat → Nat → Bool) (stars : List StarredDataset)
    (u : Nat) (body : List (String × Nat))
    (hbody : requestData body "dataset_id" = none) :
    StarredDatasetsViewSet.create isValid stars u body
      = .error (.keyError "dataset_id")
    ∧ StarredDatasetsViewSet.destroy stars u body
      = .error (.keyError "dataset_id") := by
  constructor
  · simp only [StarredDatasetsViewSet.create, hbody]
  · simp only [StarredDatasetsViewSet.destroy, hbody]

/-- Witness for C10: the empty body has no `dataset_id` key; both
handlers raise KeyError on it. -/
theorem star_missing_key_witness :
    StarredDatasetsViewSet.create (fun _ _ => true) [⟨1, 7, 5⟩] 7 []
      = .error (.keyError "dataset_id")
    ∧ StarredDatasetsViewSet.destroy [⟨1, 7, 5⟩] 7 []
      = .error (.keyError "dataset_id") :=
  star_missing_dataset_id_keyerror (fun _ _ => true) [⟨1, 7, 5⟩] 7 [] rfl

/-! ## C8: star list -/

/-- C8. The star-list response for user `u` is exactly the serialised
rows of the star table whose `user_id` is `u`, in table order: a row is
in the listed queryset precisely when it is a star row of `u`, and the
response serialises that queryset elementwise. -/
theorem star_list_exactly_own_stars {α : Type}
    (serialize : StarredDataset → α) (stars : List StarredDataset) (u : Nat) :
    StarredDatasetsViewSet.listResponse serialize stars u
      = (stars.filter (fun s => s.user_id == u)).map serialize
    ∧ ∀ s, s ∈ StarredDatasetsViewSet.list stars u ↔ (s ∈ stars ∧ s.user_id = u) := by
  constructor
  · rfl
  · intro s
    simp [StarredDatasetsViewSet.list, List.mem_filter]

/-- Witness for C8: a table with a star of user 7 and one of user 8;
listing for user 7 keeps exactly the star of user 7. -/
theorem star_list_witness :
    StarredDatasetsViewSet.listResponse (fun s => s.dataset_id)
        [⟨1, 7, 5⟩, ⟨2, 8, 6⟩] 7 = [5]
    ∧ ((⟨1, 7, 5⟩ : StarredDataset) ∈
          StarredDatasetsViewSet.list [⟨1, 7, 5⟩, ⟨2, 8, 6⟩] 7
        ↔ ((⟨1, 7, 5⟩ : StarredDataset) ∈
            ([⟨1, 7, 5⟩, ⟨2, 8, 6⟩] : List StarredDataset)
          ∧ (7 : Nat) = 7)) :=
  ⟨(star_list_exactly_own_stars (fun s => s.dataset_id) [⟨1, 7, 5⟩, ⟨2, 8, 6⟩] 7).1,
   (star_list_exactly_own_stars (fun s => s.dataset_id) [⟨1, 7, 5⟩, ⟨2, 8, 6⟩] 7).2 ⟨1, 7, 5⟩⟩

/-- A successful `objects.get` returns a table row matching both lookup
keys. -/
theorem objectsGet_ok_mem (datasets : List Dataset) (account slug : String)
    (d : Dataset) (h : objectsGet datasets account slug = .ok d) :
    d ∈ datasets ∧ d.ownerName = account ∧ d.name = slug := by
  unfold objectsGet at h
  split at h
  · cases h
  · rename_i d0 hfe
    cases h
    have hmem : d ∈ datasets.filter
        (fun d => d.ownerName == account && d.name == slug) := by
      rw [hfe]
      exact List.mem_singleton.mpr rfl
    have := List.mem_filter.mp hmem
    refine ⟨this.1, ?_, ?_⟩
    · simpa using (Bool.and_eq_true _ _ |>.mp this.2).1
    · simpa using (Bool.and_eq_true _ _ |>.mp this.2).2
  · cases h

/-! ## C2: upload page context -/

/-- C2. The upload page context `dataset` key: when `form_valid` has set
`self.object` in this request the key holds that freshly saved object,
and otherwise it holds the Dataset row looked up by the (account, slug)
URL parameters — a row of the table whose owner name is `account` and
whose name is `slug`. -/
theorem upload_context_exposes_dataset (datasets : List Dataset)
    (account slug : String) (obj : Option DataFile) :
    (∀ f, obj = some f →
        DataFileUploadView.get_context_data datasets account slug obj
          = .ok (.savedFile f))
    ∧ (obj = none → ∀ d, objectsGet datasets account slug = .ok d →
        DataFileUploadView.get_context_data datasets account slug obj
          = .ok (.lookedUp d)
        ∧ d ∈ datasets ∧ d.ownerName = account ∧ d.name = slug) := by
  constructor
  · intro f hf
    subst hf
    rfl
  · intro hobj d hd
    subst hobj
    refine ⟨?_, objectsGet_ok_mem datasets account slug d hd⟩
    simp only [DataFileUploadView.get_context_data, hd]
    rfl

/-- Witness for C2: the saved-object case with a concrete file, and the
lookup case on a one-row table. -/
theorem upload_context_witness :
    DataFileUploadView.get_context_data [] "alice" "iris" (some ⟨1, 2, [9]⟩)
      = .ok (.savedFile ⟨1, 2, [9]⟩)
    ∧ (DataFileUploadView.get_context_data [⟨1, "alice", "iris", 3⟩]
          "alice" "iris" none = .ok (.lookedUp ⟨1, "alice", "iris", 3⟩)
        ∧ (⟨1, "alice", "iris", 3⟩ : Dataset) ∈
            ([⟨1, "alice", "iris", 3⟩] : List Dataset)
        ∧ (Dataset.ownerName ⟨1, "alice", "iris", 3⟩) = "alice"
        ∧ (Dataset.name ⟨1, "alice", "iris", 3⟩) = "iris") :=
  ⟨(upload_context_exposes_dataset [] "alice" "iris" (some ⟨1, 2, [9]⟩)).1
      ⟨1, 2, [9]⟩ rfl,
   (upload_context_exposes_dataset [⟨1, "alice", "iris", 3⟩] "alice" "iris"
      none).2 rfl ⟨1, "alice", "iris", 3⟩ rfl⟩

/-! ## C9: upload lookup failure class -/

/-- C9, counterexample to the claim as stated: on an empty Dataset table
the upload context lookup raises the DoesNotExist manager exception — a
different class from the Http404 the framework maps to a not-found
response; under the framework exception handling it surfaces as a 500
server error, not a 404. -/
theorem upload_lookup_counterexample :
    DataFileUploadView.get_context_data [] "alice" "iris" none
      = .error .doesNotExist
    ∧ ViewError.doesNotExist ≠ ViewError.http404
    ∧ statusOf .doesNotExist = 500
    ∧ statusOf .doesNotExist ≠ 404 :=
  ⟨rfl, by decide, rfl, by decide⟩

/-- C9, amended: when no Dataset row matches the (account, slug) pair and
no object was saved in this request, the upload context lookup fails with
the DoesNotExist exception class, which the framework exception handler
turns into a 500 server error rather than a 404. -/
theorem upload_lookup_raises_doesnotexist (datasets : List Dataset)
    (account slug : String)
    (h : datasets.filter (fun d => d.ownerName == account && d.name == slug) = []) :
    DataFileUploadView.get_context_data datasets account slug none
      = .error .doesNotExist
    ∧ statusOf .doesNotExist = 500 := by
  refine ⟨?_, rfl⟩
  simp only [DataFileUploadView.get_context_data, objectsGet, h]
  rfl

/-- Witness for the amended C9: the empty table matches nothing. -/
theorem upload_lookup_witness :
    DataFileUploadView.get_context_data [] "bob" "cars" none
      = .error .doesNotExist
    ∧ statusOf .doesNotExist = 500 :=
  upload_lookup_raises_doesnotexist [] "bob" "cars" rfl

/-! ## C4: dataset list context -/

/-- The modelled latest-lookup on a non-empty table returns a row with
the greatest creation timestamp. -/
theorem objectsLatest_mem_max (datasets : List Dataset) (hne : datasets ≠ []) :
    ∃ d, objectsLatest datasets = some d ∧ d ∈ datasets
      ∧ ∀ e ∈ datasets, e.created ≤ d.created := by
  induction datasets with
  | nil => exact absurd rfl hne
  | cons a t ih =>
    cases t with
    | nil =>
      refine ⟨a, rfl, by simp, ?_⟩
      intro e he
      rw [List.mem_singleton.mp he]
    | cons b t2 =>
      obtain ⟨d, hd, hmem, hmax⟩ := ih (by simp)
      by_cases hc : d.created ≥ a.created
      · refine ⟨d, ?_, by simp [hmem], ?_⟩
        · rw [objectsLatest, hd]
          exact congrArg some (if_pos hc)
        · intro e he
          rcases List.mem_cons.mp he with he | he
          · exact he ▸ hc
          · exact hmax e he
      · refine ⟨a, ?_, by simp, ?_⟩
        · rw [objectsLatest, hd]
          exact congrArg some (if_neg hc)
        · intro e he
          rcases List.mem_cons.mp he with he | he
          · exact he ▸ le_refl _
          · exact le_trans (hmax e he) (le_of_lt (lt_of_not_ge hc))

/-- C4. The dataset list context: `num_datasets` is the total row count;
on an empty table the `latest_dataset` key is absent; on a non-empty
table it holds the creation timestamp of a most-recently-created row. -/
theorem list_context_count_and_latest (datasets : List Dataset) :
    (DatasetListView.get_context_data datasets).num_datasets = datasets.length
    ∧ (datasets.length = 0 →
        (DatasetListView.get_context_data datasets).latest_dataset = none)
    ∧ (0 < datasets.length →
        ∃ d ∈ datasets,
          (DatasetListView.get_context_data datasets).latest_dataset
            = some d.created
          ∧ ∀ e ∈ datasets, e.created ≤ d.created) := by
  refine ⟨rfl, ?_, ?_⟩
  · intro h
    rw [List.length_eq_zero.mp h]
    rfl
  · intro h
    have hne : datasets ≠ [] := List.length_pos.mp h
    obtain ⟨d, hd, hmem, hmax⟩ := objectsLatest_mem_max datasets hne
    refine ⟨d, hmem, ?_, hmax⟩
    simp [DatasetListView.get_context_data, h, hd]

/-- Witness for C4: the empty table has count 0 and no latest key; a
two-row table has count 2 and the later timestamp as latest. -/
theorem list_context_witness :
    (DatasetListView.get_context_data []).num_datasets = 0
    ∧ (DatasetListView.get_context_data []).latest_dataset = none
    ∧ (DatasetListView.get_context_data
        [⟨1, "a", "x", 4⟩, ⟨2, "a", "y", 9⟩]).latest_dataset = some 9 := by
  refine ⟨(list_context_count_and_latest []).1, (list_context_count_and_latest []).2.1 rfl, ?_⟩
  obtain ⟨d, hmem, hlat, hmax⟩ :=
    (list_context_count_and_latest [⟨1, "a", "x", 4⟩, ⟨2, "a", "y", 9⟩]).2.2
      (by decide)
  rcases List.mem_cons.mp hmem with h | h
  · exact absurd (hmax ⟨2, "a", "y", 9⟩ (by simp)) (by rw [h]; decide)
  · rw [List.mem_singleton.mp h] at hlat
    exact hlat

/-! ## C5: dataset create duplicate handling -/

/-- C5. `DatasetCreateView.form_valid`: when a row with the same
(owner, name) already exists the save raises IntegrityError, the handler
catches it — no error escapes to the client — and re-renders the form
with the duplicate-name non-field error, inserting nothing; when no such
row exists exactly the one new row is appended and the response is a
redirect to the detail page of the created dataset. -/
theorem dataset_create_duplicate_handled (datasets : List Dataset)
    (owner nm : String) (rowId created : Nat) :
    ((∃ d ∈ datasets, d.ownerName = owner ∧ d.name = nm) →
        DatasetCreateView.form_valid datasets owner nm rowId created
          = (datasets,
             .formError
               "A dataset with this name already exists, please choose another."))
    ∧ ((∀ d ∈ datasets, ¬(d.ownerName = owner ∧ d.name = nm)) →
        DatasetCreateView.form_valid datasets owner nm rowId created
          = (datasets ++ [⟨rowId, owner, nm, created⟩],
             .redirect (getAbsoluteUrl ⟨rowId, owner, nm, created⟩))) := by
  constructor
  · rintro ⟨d, hd, h1, h2⟩
    have hany : datasets.any (fun d => d.ownerName == owner && d.name == nm) = true :=
      List.any_eq_true.mpr ⟨d, hd, by simp [h1, h2]⟩
    simp only [DatasetCreateView.form_valid, createDatasetFormSave, hany, if_true]
  · intro hnone
    have hany : datasets.any (fun d => d.ownerName == owner && d.name == nm) = false := by
      rw [List.any_eq_false]
      intro d hd
      have := hnone d hd
      simp only [Bool.and_eq_true, beq_iff_eq]
      tauto
    simp only [DatasetCreateView.form_valid, createDatasetFormSave, hany,
      Bool.false_eq_true, if_false]

/-- Witness for C5: creating `(alice, iris)` over a table already holding
it re-renders with the error and keeps the table; over the empty table it
inserts the row and redirects to its detail URL. -/
theorem dataset_create_witness :
    DatasetCreateView.form_valid [⟨1, "alice", "iris", 3⟩] "alice" "iris" 2 4
      = ([⟨1, "alice", "iris", 3⟩],
         .formError
           "A dataset with this name already exists, please choose another.")
    ∧ DatasetCreateView.form_valid [] "alice" "iris" 1 3
      = ([⟨1, "alice", "iris", 3⟩],
         .redirect (getAbsoluteUrl ⟨1, "alice", "iris", 3⟩)) :=
  ⟨(dataset_create_duplicate_handled [⟨1, "alice", "iris", 3⟩] "alice" "iris" 2 4).1
      ⟨⟨1, "alice", "iris", 3⟩, by simp, rfl, rfl⟩,
   (dataset_create_duplicate_handled [] "alice" "iris" 1 3).2
      (by intro d hd; cases hd)⟩

/-! ## C6: file upload duplicate handling -/

/-- C6. `DataFileUploadView.form_valid`: when byte-identical content is
already stored for the resolved dataset the save raises IntegrityError,
the handler catches it and re-renders the upload form with the
duplicate-file non-field error, persisting nothing; when the content is
new exactly one file row linked to the resolved dataset is appended and
the response redirects to that dataset detail page. -/
theorem file_upload_duplicate_handled (files : List DataFile) (ds : Dataset)
    (content : List Nat) (rowId : Nat) :
    ((∃ f ∈ files, f.dataset_id = ds.id ∧ f.content = content) →
        DataFileUploadView.form_valid files ds content rowId
          = (files,
             .formError "Duplicate file detected! Cannot upload the same file twice."))
    ∧ ((∀ f ∈ files, ¬(f.dataset_id = ds.id ∧ f.content = content)) →
        DataFileUploadView.form_valid files ds content rowId
          = (files ++ [⟨rowId, ds.id, content⟩], .redirect (getAbsoluteUrl ds))) := by
  constructor
  · rintro ⟨f, hf, h1, h2⟩
    have hany : files.any (fun f => f.dataset_id == ds.id && f.content == content) = true :=
      List.any_eq_true.mpr ⟨f, hf, by simp [h1, h2]⟩
    simp only [DataFileUploadView.form_valid, dataFileFormSave, hany, if_true]
  · intro hnone
    have hany : files.any (fun f => f.dataset_id == ds.id && f.content == content) = false := by
      rw [List.any_eq_false]
      intro f hf
      have := hnone f hf
      simp only [Bool.and_eq_true, beq_iff_eq]
      tauto
    simp only [DataFileUploadView.form_valid, dataFileFormSave, hany,
      Bool.false_eq_true, if_false]

/-- Witness for C6: re-uploading content `[9]` to dataset 2 re-renders
with the duplicate-file error and keeps the table; uploading to an empty
table appends the linked row and redirects to the dataset page. -/
theorem file_upload_witness :
    DataFileUploadView.form_valid [⟨1, 2, [9]⟩] ⟨2, "alice", "iris", 3⟩ [9] 5
      = ([⟨1, 2, [9]⟩],
         .formError "Duplicate file detected! Cannot upload the same file twice.")
    ∧ DataFileUploadView.form_valid [] ⟨2, "alice", "iris", 3⟩ [9] 1
      = ([⟨1, 2, [9]⟩], .redirect (getAbsoluteUrl ⟨2, "alice", "iris", 3⟩)) :=
  ⟨(file_upload_duplicate_handled [⟨1, 2, [9]⟩] ⟨2, "alice", "iris", 3⟩ [9] 5).1
      ⟨⟨1, 2, [9]⟩, by simp, rfl, rfl⟩,
   (file_upload_duplicate_handled [] ⟨2, "alice", "iris", 3⟩ [9] 1).2
      (by intro f hf; cases hf)⟩

/-! ## C7: detail panel views -/

/-- The two staged filters of the detail lookup — owner name from the
queryset, dataset name from the slug — collapse to the one combined
row filter. -/
theorem detail_filter_eq (datasets : List Dataset) (account slug : String) :
    (detailGetQueryset datasets account).filter (fun d => d.name == slug)
      = datasets.filter (fun d => d.ownerName == account && d.name == slug) := by
  unfold detailGetQueryset
  rw [List.filter_filter]
  exact List.filter_congr (by intro x hx; exact Bool.and_comm _ _)

/-- C7. The four detail panel views: schema, explore and settings inherit
the object lookup of `DatasetDetailView` unchanged, differing only in
their static `panel_name` ("files", "schema", "explore", "settings") and
template; the shared lookup resolves one Dataset row matching the owner
name and slug of the request path, and yields Http404 — the not-found
response — exactly when zero rows match. -/
theorem detail_views_shared_lookup (datasets : List Dataset)
    (account slug : String) :
    (DatasetSchemaView.get_object = DatasetDetailView.get_object
      ∧ DatasetExploreView.get_object = DatasetDetailView.get_object
      ∧ DatasetSettingsView.get_object = DatasetDetailView.get_object)
    ∧ (DatasetDetailView.panel_name = "files"
      ∧ DatasetSchemaView.panel_name = "schema"
      ∧ DatasetExploreView.panel_name = "explore"
      ∧ DatasetSettingsView.panel_name = "settings")
    ∧ (∀ d, DatasetDetailView.get_object datasets account slug = .ok d →
        d ∈ datasets ∧ d.ownerName = account ∧ d.name = slug)
    ∧ (DatasetDetailView.get_object datasets account slug = .error .http404
        ↔ datasets.filter (fun d => d.ownerName == account && d.name == slug) = []) := by
  refine ⟨⟨rfl, rfl, rfl⟩, ⟨rfl, rfl, rfl, rfl⟩, ?_, ?_⟩
  · intro d h
    change detailGetObject datasets account slug = Except.ok d at h
    unfold detailGetObject at h
    rw [detail_filter_eq] at h
    split at h
    · cases h
    · rename_i d0 hfe
      cases h
      have hmem : d ∈ datasets.filter
          (fun d => d.ownerName == account && d.name == slug) := by
        rw [hfe]
        exact List.mem_singleton.mpr rfl
      have := List.mem_filter.mp hmem
      refine ⟨this.1, ?_, ?_⟩
      · simpa using (Bool.and_eq_true _ _ |>.mp this.2).1
      · simpa using (Bool.and_eq_true _ _ |>.mp this.2).2
    · cases h
  · change detailGetObject datasets account slug = Except.error .http404 ↔ _
    unfold detailGetObject
    rw [detail_filter_eq]
    split
    · rename_i hfe
      simp [hfe]
    · rename_i d0 hfe
      simp [hfe]
    · rename_i d0 d1 rest hfe
      simp [hfe]

/-- Witness for C7: the shared lookup succeeds on the one matching row
of a singleton table, and on the empty table it yields Http404. -/
theorem detail_views_witness :
    ((⟨1, "alice", "iris", 3⟩ : Dataset) ∈ ([⟨1, "alice", "iris", 3⟩] : List Dataset)
      ∧ Dataset.ownerName ⟨1, "alice", "iris", 3⟩ = "alice"
      ∧ Dataset.name ⟨1, "alice", "iris", 3⟩ = "iris")
    ∧ DatasetDetailView.get_object [] "alice" "iris" = .error .http404 :=
  ⟨(detail_views_shared_lookup [⟨1, "alice", "iris", 3⟩] "alice" "iris").2.2.1
      ⟨1, "alice", "iris", 3⟩ rfl,
   (detail_views_shared_lookup [] "alice" "iris").2.2.2.mpr rfl⟩
